import Mathlib

/-!
Verification of the fitness-tracker metrics engine (src/app.py).

All numeric computations in the source operate on Python numbers; they are
embedded here over `ℚ`.  The boundary constants 18.5, 25 and 30 are exactly
representable, so comparisons agree with the source.  The source functions
read module-level input variables; here each one takes those inputs as
explicit arguments, keeping the formulas verbatim.
-/

namespace FitnessTracker

/-- Gender as offered by the sidebar selectbox (`["Female", "Male"]`). -/
inductive Gender where
  | Female
  | Male
  deriving DecidableEq, Repr

/-- Sidebar biometric inputs (sliders at src/app.py lines 24-27). -/
structure UserProfile where
  age : ℚ
  gender : Gender
  height_cm : ℚ
  weight_kg : ℚ
  deriving Repr

/-- Sidebar activity inputs (sliders at src/app.py lines 28-31). -/
structure ActivitySample where
  running_time_min : ℚ
  running_speed_kmh : ℚ
  distance_km : ℚ
  heart_rate_bpm : ℚ
  deriving Repr

/-- `calculate_bmi` (src/app.py lines 48-51): `h_m = height / 100;
bmi = weight / (h_m ** 2)`. -/
def calculate_bmi (height weight : ℚ) : ℚ :=
  let h_m := height / 100
  weight / (h_m ^ 2)

/-- `calculate_workout_intensity` (src/app.py lines 53-56):
`max_heart_rate = 220 - age; intensity = (heart_rate / max_heart_rate) * 100`. -/
def calculate_workout_intensity (age heart_rate : ℚ) : ℚ :=
  let max_heart_rate := 220 - age
  (heart_rate / max_heart_rate) * 100

/-- `calculate_running_speed` (src/app.py lines 58-63): when
`running_time > 0` it is `distance / (running_time / 60)`, otherwise `0`. -/
def calculate_running_speed (distance running_time : ℚ) : ℚ :=
  if running_time > 0 then distance / (running_time / 60) else 0

/-- `classify_bmi` (src/app.py lines 65-73), with Python's chained
comparisons written as conjunctions. -/
def classify_bmi (bmi : ℚ) : String :=
  if bmi < 37/2 then "Underweight"
  else if 37/2 ≤ bmi ∧ bmi < 25 then "Normal"
  else if 25 ≤ bmi ∧ bmi < 30 then "Overweight"
  else "Obese"

/-- `provide_suggestions` (src/app.py lines 75-83): the same band
conditions as `classify_bmi`, returning an advisory string. -/
def provide_suggestions (bmi : ℚ) : String :=
  if bmi < 37/2 then "Increase calorie intake and do strength training."
  else if 37/2 ≤ bmi ∧ bmi < 25 then "Maintain current routine. Keep up the good work!"
  else if 25 ≤ bmi ∧ bmi < 30 then "Incorporate more cardio and balanced diet."
  else "Consult a healthcare provider for a tailored fitness plan."

/-- The gender encoding used in `predict_calories` (src/app.py line 42):
`0 if gender=="Female" else 1`. -/
def genderCode (g : Gender) : ℚ :=
  if g = Gender.Female then 0 else 1

/-- The 8-element model input row built in `predict_calories`
(src/app.py lines 42-43). -/
def featureVector (p : UserProfile) (a : ActivitySample) : List ℚ :=
  [p.age, genderCode p.gender, p.height_cm, p.weight_kg,
   a.running_time_min, a.running_speed_kmh, a.distance_km, a.heart_rate_bpm]

/-- `predict_calories` (src/app.py lines 41-46) with the externally loaded
scaler and regression model passed in as opaque functions: the row is
scaler-transformed, then handed to the model. -/
def predict_calories (scaler : List ℚ → List ℚ) (model : List ℚ → ℚ)
    (p : UserProfile) (a : ActivitySample) : ℚ :=
  model (scaler (featureVector p a))

/-- The calories-progress branch (src/app.py lines 107-110):
`(calories_burned / goal_calories) * 100` when `goal_calories > 0`, else `0`. -/
def calories_progress (calories_burned goal_calories : ℚ) : ℚ :=
  if goal_calories > 0 then (calories_burned / goal_calories) * 100 else 0

/-- The steps-progress branch (src/app.py lines 112-115):
`(steps_taken / goal_steps) * 100` when `goal_steps > 0`, else `0`. -/
def steps_progress (steps_taken goal_steps : ℚ) : ℚ :=
  if goal_steps > 0 then (steps_taken / goal_steps) * 100 else 0

/-- Spec-side map for the refinement claim about suggestions: the fixed
one-to-one mapping `suggestion(category)` from a category name to its
advisory string, written from the table in the spec. -/
def suggestion_for_category (category : String) : String :=
  if category = "Underweight" then "Increase calorie intake and do strength training."
  else if category = "Normal" then "Maintain current routine. Keep up the good work!"
  else if category = "Overweight" then "Incorporate more cardio and balanced diet."
  else "Consult a healthcare provider for a tailored fitness plan."

/-! ## Script trace model

For the error-handling claim, the top-level Streamlit script is modelled
as an emitter of UI events.  A run either finishes, or crashes on an
uncaught exception, keeping the events already emitted (Streamlit renders
elements as the script reaches them, so elements written before a crash
stay on screen).  Event payloads are the labels of the corresponding
`st.write` / `st.warning` / `st.success` calls; numeric values are
irrelevant to the claim and omitted. -/

/-- A UI element emitted by the script. -/
inductive UIEvent where
  | header (text : String)
  | metricLine (text : String)
  | warningMsg (text : String)
  | successMsg (text : String)
  deriving DecidableEq, Repr

/-- Outcome of one script run: finished normally, or crashed on an
uncaught exception after emitting the given events. -/
inductive ScriptOutcome where
  | finished (events : List UIEvent)
  | crashed (events : List UIEvent)
  deriving DecidableEq, Repr

/-- The metric lines displayed unconditionally (src/app.py lines 97-102). -/
def metricsEvents : List UIEvent :=
  [UIEvent.metricLine "Calories Burned",
   UIEvent.metricLine "BMI",
   UIEvent.metricLine "Workout Intensity",
   UIEvent.metricLine "Running Speed",
   UIEvent.metricLine "Fitness Suggestion"]

/-- The progress lines (src/app.py lines 117-119). -/
def progressEvents : List UIEvent :=
  [UIEvent.metricLine "Calories Progress",
   UIEvent.metricLine "Steps Progress"]

/-- The data-analysis block (src/app.py lines 124-129): guarded by
`try/except`, warns and continues when the dataset is unavailable. -/
def analysisEvents (datasetOk : Bool) : List UIEvent :=
  if datasetOk then
    [UIEvent.header "Calories Burned Distribution"]
  else
    [UIEvent.warningMsg "Dataset not found for plotting"]

/-- The comparison block (src/app.py lines 134-147): runs only when its
button was clicked; guarded by `try/except`, warns when the dataset is
unavailable. -/
def compareEvents (compareClicked datasetOk : Bool) : List UIEvent :=
  if compareClicked then
    if datasetOk then
      [UIEvent.header "Comparison with Dataset Averages",
       UIEvent.metricLine "Your Calories Burned vs Dataset Avg",
       UIEvent.metricLine "Your BMI vs Dataset Avg",
       UIEvent.metricLine "Your Running Speed vs Dataset Avg",
       UIEvent.metricLine "Your Heart Rate vs Dataset Avg"]
    else
      [UIEvent.warningMsg "Dataset not available for comparison"]
  else []

/-- Everything emitted before the PDF-report block. -/
def preReportEvents (datasetOk compareClicked : Bool) : List UIEvent :=
  metricsEvents ++ progressEvents ++ analysisEvents datasetOk
    ++ compareEvents compareClicked datasetOk

/-- One run of the script (src/app.py lines 88-169).  The PDF-report block
(lines 152-169) has no `try/except`: when `pdf.output` fails the exception
is uncaught and the run crashes with only the events emitted so far; the
`st.success` message is emitted only after a successful write. -/
def runScript (datasetOk compareClicked generateClicked pdfWriteOk : Bool) :
    ScriptOutcome :=
  let evts := preReportEvents datasetOk compareClicked
  if generateClicked then
    if pdfWriteOk then
      ScriptOutcome.finished
        (evts ++ [UIEvent.successMsg "PDF report generated as fitness_report.pdf"])
    else
      ScriptOutcome.crashed evts
  else
    ScriptOutcome.finished evts

/-- The events a run emitted, whether or not it crashed. -/
def eventsOf : ScriptOutcome → List UIEvent
  | ScriptOutcome.finished evts => evts
  | ScriptOutcome.crashed evts => evts

end FitnessTracker

/-! ## Claims -/

namespace FitnessTracker

lemma mem_preReportEvents_of_mem_metrics {e : UIEvent} (d c : Bool)
    (he : e ∈ metricsEvents) : e ∈ preReportEvents d c := by
  unfold preReportEvents
  exact List.mem_append_left _ (List.mem_append_left _ (List.mem_append_left _ he))

/-- C1: `classify_bmi` realises the half-open bands `<18.5` Underweight,
`[18.5,25)` Normal, `[25,30)` Overweight, `≥30` Obese, returns one of
exactly these four categories, and each boundary value belongs to the
higher band. -/
theorem c1_classify_bmi_bands (bmi : ℚ) :
    (bmi < 37/2 → classify_bmi bmi = "Underweight") ∧
    (37/2 ≤ bmi → bmi < 25 → classify_bmi bmi = "Normal") ∧
    (25 ≤ bmi → bmi < 30 → classify_bmi bmi = "Overweight") ∧
    (30 ≤ bmi → classify_bmi bmi = "Obese") ∧
    (classify_bmi bmi = "Underweight" ∨ classify_bmi bmi = "Normal" ∨
      classify_bmi bmi = "Overweight" ∨ classify_bmi bmi = "Obese") := by
  refine ⟨fun h => ?_, fun ha hb => ?_, fun ha hb => ?_, fun h => ?_, ?_⟩
  · simp [classify_bmi, h]
  · have h1 : ¬ bmi < 37/2 := not_lt.mpr ha
    simp [classify_bmi, h1, ha, hb]
  · have h1 : ¬ bmi < 37/2 := not_lt.mpr (by linarith)
    have h2 : ¬ (37/2 ≤ bmi ∧ bmi < 25) := by rintro ⟨-, hlt⟩; linarith
    simp [classify_bmi, h1, h2, ha, hb]
  · have h1 : ¬ bmi < 37/2 := not_lt.mpr (by linarith)
    have h2 : ¬ (37/2 ≤ bmi ∧ bmi < 25) := by rintro ⟨-, hlt⟩; linarith
    have h3 : ¬ (25 ≤ bmi ∧ bmi < 30) := by rintro ⟨-, hlt⟩; linarith
    simp [classify_bmi, h1, h2, h3]
  · unfold classify_bmi
    split_ifs <;> tauto

/-- Witness for C1 at the three boundary values and one interior point:
each boundary belongs to the higher band. -/
theorem c1_classify_bmi_bands_witness :
    classify_bmi (37/2) = "Normal" ∧ classify_bmi 25 = "Overweight" ∧
    classify_bmi 30 = "Obese" ∧ classify_bmi 17 = "Underweight" :=
  ⟨(c1_classify_bmi_bands (37/2)).2.1 (by norm_num) (by norm_num),
   (c1_classify_bmi_bands 25).2.2.1 (by norm_num) (by norm_num),
   (c1_classify_bmi_bands 30).2.2.2.1 (by norm_num),
   (c1_classify_bmi_bands 17).1 (by norm_num)⟩

/-- C2: both progress computations return `(actual/goal)*100` when
`goal > 0` and exactly `0` when `goal = 0`, with no clamping at 100. -/
theorem c2_progress_formula (actual goal : ℚ) :
    (goal > 0 → calories_progress actual goal = actual / goal * 100 ∧
      steps_progress actual goal = actual / goal * 100) ∧
    (goal = 0 → calories_progress actual goal = 0 ∧
      steps_progress actual goal = 0) := by
  constructor
  · intro h
    constructor <;> simp [calories_progress, steps_progress, h]
  · intro h
    subst h
    constructor <;> simp [calories_progress, steps_progress]

/-- Witness for C2: at goal 100 the ratio formula applies (and a value
above the goal exceeds 100 uncapped); at goal 0 the result is 0. -/
theorem c2_progress_formula_witness :
    calories_progress 250 100 = 250 / 100 * 100 ∧
    steps_progress 2000 0 = 0 :=
  ⟨((c2_progress_formula 250 100).1 (by norm_num)).1,
   ((c2_progress_formula 2000 0).2 rfl).2⟩

/-- C3: for positive height and nonnegative weight, `calculate_bmi`
returns exactly `weight / (height/100)^2`, unclamped. -/
theorem c3_bmi_formula (height weight : ℚ) (_hh : height > 0) (_hw : weight ≥ 0) :
    calculate_bmi height weight = weight / (height / 100) ^ 2 := rfl

/-- Witness for C3 at height 170 cm, weight 70 kg. -/
theorem c3_bmi_formula_witness :
    calculate_bmi 170 70 = 70 / ((170 : ℚ) / 100) ^ 2 :=
  c3_bmi_formula 170 70 (by norm_num) (by norm_num)

/-- C4: `calculate_running_speed` returns `distance/(time/60)` for
positive time and exactly `0` at time `0`, for any distance. -/
theorem c4_running_speed_formula (distance running_time : ℚ) :
    (running_time > 0 →
      calculate_running_speed distance running_time = distance / (running_time / 60)) ∧
    (running_time = 0 → calculate_running_speed distance running_time = 0) := by
  constructor
  · intro h
    simp [calculate_running_speed, h]
  · intro h
    subst h
    simp [calculate_running_speed]

/-- Witness for C4: 5 km in 30 min gives 10 km/h; zero time gives 0. -/
theorem c4_running_speed_formula_witness :
    calculate_running_speed 5 30 = 10 ∧ calculate_running_speed 7 0 = 0 := by
  have h1 := (c4_running_speed_formula 5 30).1 (by norm_num)
  have h2 := (c4_running_speed_formula 7 0).2 rfl
  refine ⟨?_, h2⟩
  rw [h1]; norm_num

/-- C5: `predict_calories` feeds the model the scaler-transformed vector
of exactly the 8 ordered fields age, gender code, height, weight, running
time, running speed, distance, heart rate, with Female encoded 0 and
Male encoded 1. -/
theorem c5_feature_vector (scaler : List ℚ → List ℚ) (model : List ℚ → ℚ)
    (p : UserProfile) (a : ActivitySample) :
    predict_calories scaler model p a =
      model (scaler [p.age, genderCode p.gender, p.height_cm, p.weight_kg,
        a.running_time_min, a.running_speed_kmh, a.distance_km, a.heart_rate_bpm]) ∧
    (featureVector p a).length = 8 ∧
    genderCode Gender.Female = 0 ∧ genderCode Gender.Male = 1 :=
  ⟨rfl, rfl, rfl, rfl⟩

end FitnessTracker

namespace FitnessTracker

/-- C6 counterexample: with the dataset present, the compare button not
clicked and the generate button clicked, a failing PDF write crashes the
run, and the events the script emitted are exactly those of a run where
the report was never requested: the script itself reports nothing about
the write failure (no warning, no distinct failure message), so the
failure surfaces only as an uncaught exception — the same channel a
metric-computation failure would use. -/
theorem c6_counterexample :
    runScript true false true false =
      ScriptOutcome.crashed (preReportEvents true false) ∧
    eventsOf (runScript true false true false) =
      eventsOf (runScript true false false true) :=
  ⟨rfl, rfl⟩

/-- C6 (amended): the metric lines are emitted before the PDF-report
block, so a report-write failure never removes them; on a failed write
the run crashes having emitted only the pre-report events (so no success
message and no script-level failure report), and on a successful write
the script appends exactly the success message. -/
theorem c6_report_write_behavior
    (datasetOk compareClicked generateClicked pdfWriteOk : Bool) :
    (∀ e ∈ metricsEvents,
      e ∈ eventsOf (runScript datasetOk compareClicked generateClicked pdfWriteOk)) ∧
    (generateClicked = true → pdfWriteOk = false →
      runScript datasetOk compareClicked generateClicked pdfWriteOk =
        ScriptOutcome.crashed (preReportEvents datasetOk compareClicked)) ∧
    (generateClicked = true → pdfWriteOk = true →
      eventsOf (runScript datasetOk compareClicked generateClicked pdfWriteOk) =
        preReportEvents datasetOk compareClicked
          ++ [UIEvent.successMsg "PDF report generated as fitness_report.pdf"]) := by
  refine ⟨?_, ?_, ?_⟩
  · intro e he
    cases generateClicked <;> cases pdfWriteOk <;>
      simp only [runScript, eventsOf, Bool.false_eq_true, if_false, if_true,
        List.mem_append] <;>
      first
        | exact mem_preReportEvents_of_mem_metrics _ _ he
        | exact Or.inl (mem_preReportEvents_of_mem_metrics _ _ he)
  · intro hg hw
    subst hg; subst hw
    rfl
  · intro hg hw
    subst hg; subst hw
    rfl

/-- Witness for C6 (amended) at the concrete failing-write run: the BMI
metric line was still displayed, and the run crashed with exactly the
pre-report events. -/
theorem c6_report_write_behavior_witness :
    UIEvent.metricLine "BMI" ∈ eventsOf (runScript true false true false) ∧
    runScript true false true false =
      ScriptOutcome.crashed (preReportEvents true false) := by
  have h := c6_report_write_behavior true false true false
  exact ⟨h.1 _ (by simp [metricsEvents]), h.2.1 rfl rfl⟩

/-- C7: for every bmi the suggestion printed is exactly the image of the
bmi category under the fixed category-to-advisory map, and the four
advisory strings are pairwise distinct (the map is one-to-one on the four
categories). -/
theorem c7_suggestion_matches_category (bmi : ℚ) :
    provide_suggestions bmi = suggestion_for_category (classify_bmi bmi) ∧
    suggestion_for_category "Underweight" ≠ suggestion_for_category "Normal" ∧
    suggestion_for_category "Underweight" ≠ suggestion_for_category "Overweight" ∧
    suggestion_for_category "Underweight" ≠ suggestion_for_category "Obese" ∧
    suggestion_for_category "Normal" ≠ suggestion_for_category "Overweight" ∧
    suggestion_for_category "Normal" ≠ suggestion_for_category "Obese" ∧
    suggestion_for_category "Overweight" ≠ suggestion_for_category "Obese" := by
  refine ⟨?_, by decide, by decide, by decide, by decide, by decide, by decide⟩
  unfold provide_suggestions classify_bmi
  split_ifs <;> rfl

/-- C8: within the stated input domain (age at most 100) the intensity
formula's denominator `220 - age` is nonzero, the result is exactly
`heart_rate / (220 - age) * 100`, and the denominator vanishes only at
age 220, which is outside the domain. -/
theorem c8_intensity_denominator_safe (age heart_rate : ℚ) (h : age ≤ 100) :
    220 - age ≠ 0 ∧
    calculate_workout_intensity age heart_rate = heart_rate / (220 - age) * 100 ∧
    (220 - age = 0 ↔ age = 220) := by
  refine ⟨fun h0 => ?_, rfl, ?_⟩
  · have : age = 220 := by linarith
    linarith
  · constructor <;> intro h220 <;> linarith

/-- Witness for C8 at the default inputs age 25, heart rate 80. -/
theorem c8_intensity_denominator_safe_witness :
    (220 - (25 : ℚ) ≠ 0) ∧
    calculate_workout_intensity 25 80 = 80 / (220 - 25) * 100 := by
  have h := c8_intensity_denominator_safe 25 80 (by norm_num)
  exact ⟨h.1, h.2.1⟩

/-- C9: for a fixed positive goal, both progress computations are
strictly monotone in the actual value. -/
theorem c9_progress_strict_mono (goal a1 a2 : ℚ) (hg : 0 < goal) (h : a1 < a2) :
    calories_progress a1 goal < calories_progress a2 goal ∧
    steps_progress a1 goal < steps_progress a2 goal := by
  have hinv : 0 < goal⁻¹ := inv_pos.mpr hg
  have hdiv : a1 * goal⁻¹ < a2 * goal⁻¹ := mul_lt_mul_of_pos_right h hinv
  have key : a1 / goal * 100 < a2 / goal * 100 := by
    rw [div_eq_mul_inv, div_eq_mul_inv]
    exact mul_lt_mul_of_pos_right hdiv (by norm_num)
  refine ⟨?_, ?_⟩ <;>
    simp only [calories_progress, steps_progress] <;>
    rw [if_pos hg, if_pos hg] <;>
    exact key

/-- Witness for C9 at goal 100, actual values 10 and 20. -/
theorem c9_progress_strict_mono_witness :
    calories_progress 10 100 < calories_progress 20 100 ∧
    steps_progress 10 100 < steps_progress 20 100 :=
  c9_progress_strict_mono 100 10 20 (by norm_num) (by norm_num)

/-- C10: the intensity computation has no upper clamp: at age 100, heart
rate 200 (both inside the slider domains 10-100 and 50-200) the returned
intensity strictly exceeds 100. -/
theorem c10_intensity_exceeds_100 :
    (10 : ℚ) ≤ 100 ∧ (100 : ℚ) ≤ 100 ∧ (50 : ℚ) ≤ 200 ∧ (200 : ℚ) ≤ 200 ∧
    100 < calculate_workout_intensity 100 200 := by
  norm_num [calculate_workout_intensity]

end FitnessTracker
